import Mathlib

/-!
Shallow embedding of the mijia-homie repository:
  * `src/mijia/src/decode/readings.rs` — the readings codec,
  * `src/mijia/src/lib.rs` — history retrieval (`get_all_history`),
  * `src/publish-mqtt/src/main.rs` — the connection orchestrator and
    event dispatcher.
Bytes are modelled as `Nat` with explicit bounds where they matter,
timestamps (`Instant`) as `Nat`, and the telemetry (homie) collaborator
as a log of emitted commands.
-/

namespace Mijia

/-! ## Readings codec (`src/mijia/src/decode/readings.rs`) -/

/-- Modelled from the spec: `decode_temperature` lives in
`src/mijia/src/decode` outside the provided files; the spec describes it
as the little-endian signed 16-bit fixed-point value divided by 100.0 °C.
We keep the signed centicelsius value as an `Int` (the division by 100.0
only changes the unit, not the information content). -/
def decode_temperature (b0 b1 : Nat) : Int :=
  let v := b0 % 256 + 256 * (b1 % 256)
  if v < 32768 then (v : Int) else (v : Int) - 65536

/-- `Readings` struct: temperature is kept in centicelsius (see
`decode_temperature`), the other fields are as in the source
(`humidity: u8`, `battery_voltage: u16`, `battery_percent: u16`). -/
structure Readings where
  temperature : Int
  humidity : Nat
  battery_voltage : Nat
  battery_percent : Nat
deriving DecidableEq, Repr

/-- `Readings::decode` from `readings.rs`: `None` unless the buffer has
exactly 5 bytes; bytes 0..2 are the temperature, byte 2 the humidity,
bytes 3..5 the little-endian u16 battery voltage, and
`battery_percent = (max(battery_voltage, 2100) - 2100) / 10`. -/
def Readings.decode (value : List Nat) : Option Readings :=
  if value.length ≠ 5 then
    none
  else
    let temperature := decode_temperature (value.getD 0 0) (value.getD 1 0)
    let humidity := value.getD 2 0
    let battery_voltage := value.getD 3 0 + 256 * value.getD 4 0
    let battery_percent := (max battery_voltage 2100 - 2100) / 10
    some { temperature, humidity, battery_voltage, battery_percent }

/-- Modelled from the spec: `HistoryRecord` is decoded in
`src/mijia/src/decode/history.rs`, which is absent from the provided
files; the spec gives `{ index: uint32, timestamp, temperature, humidity,
battery-related fields as applicable }`. Only `index` is inspected by
`get_all_history`. -/
structure HistoryRecord where
  index : Nat
  timestamp : Nat
  temperature : Int
  humidity : Nat
deriving DecidableEq, Repr

/-- A buffer is a byte buffer when every entry fits in one byte. -/
def IsByteBuffer (value : List Nat) : Prop := ∀ b ∈ value, b < 256

instance (value : List Nat) : Decidable (IsByteBuffer value) := by
  unfold IsByteBuffer; infer_instance

end Mijia

/-! ## Theorems for the codec claims -/

namespace Mijia

/-- C1: for every 5-byte buffer, `battery_percent` is
`floor (max 0 (battery_voltage - 2100) / 10)` where `battery_voltage` is
the little-endian u16 of bytes 3..5; in particular it is 0 whenever the
voltage is below 2100 mV. -/
theorem battery_percent_formula (value : List Nat)
    (hb : IsByteBuffer value) (h5 : value.length = 5) :
    ∃ r : Readings, Readings.decode value = some r ∧
      r.battery_voltage = value.getD 3 0 + 256 * value.getD 4 0 ∧
      (r.battery_percent : Int) = max 0 ((r.battery_voltage : Int) - 2100) / 10 ∧
      (r.battery_voltage < 2100 → r.battery_percent = 0) := by
  have hdec : Readings.decode value = some
      { temperature := decode_temperature (value.getD 0 0) (value.getD 1 0),
        humidity := value.getD 2 0,
        battery_voltage := value.getD 3 0 + 256 * value.getD 4 0,
        battery_percent :=
          (max (value.getD 3 0 + 256 * value.getD 4 0) 2100 - 2100) / 10 } := by
    rw [Readings.decode, if_neg (by omega)]
  refine ⟨_, hdec, rfl, ?_, ?_⟩
  · set v : Nat := value.getD 3 0 + 256 * value.getD 4 0 with hv
    show ((max v 2100 - 2100) / 10 : Nat) = max 0 ((v : Int) - 2100) / 10
    rcases le_or_lt 2100 v with hle | hlt
    · rw [max_eq_left hle, max_eq_right (by omega : (0 : Int) ≤ (v : Int) - 2100)]
      push_cast [Nat.cast_sub hle]
      rfl
    · rw [max_eq_right (by omega : v ≤ 2100),
        max_eq_left (by omega : (v : Int) - 2100 ≤ 0)]
      simp
  · intro hlt
    show ((max (value.getD 3 0 + 256 * value.getD 4 0) 2100 - 2100) / 10 : Nat) = 0
    rw [max_eq_right (le_of_lt hlt)]

/-- Witness for `battery_percent_formula` at the buffer `[1, 2, 3, 4, 10]`
(the repository's own test vector: battery_voltage 2564, percent 46),
checking also the sub-2100 clamp via the conclusion's implication. -/
theorem battery_percent_formula_witness :
    IsByteBuffer [1, 2, 3, 4, 10] ∧ ([1, 2, 3, 4, 10] : List Nat).length = 5 ∧
      ∃ r : Readings, Readings.decode [1, 2, 3, 4, 10] = some r ∧
        r.battery_voltage =
          ([1, 2, 3, 4, 10] : List Nat).getD 3 0 + 256 * ([1, 2, 3, 4, 10] : List Nat).getD 4 0 ∧
        (r.battery_percent : Int) = max 0 ((r.battery_voltage : Int) - 2100) / 10 ∧
        (r.battery_voltage < 2100 → r.battery_percent = 0) :=
  ⟨by decide, rfl,
    battery_percent_formula [1, 2, 3, 4, 10] (by decide) rfl⟩

/-- C2: `Readings::decode` fails (returns `none`) exactly on buffers whose
length is not 5 — including the empty buffer and over-long buffers — and
succeeds exactly on 5-byte buffers. -/
theorem decode_length_guard (value : List Nat) :
    (Readings.decode value = none ↔ value.length ≠ 5) ∧
      ((Readings.decode value).isSome ↔ value.length = 5) := by
  constructor
  · constructor
    · intro h hlen
      rw [Readings.decode] at h
      simp [hlen] at h
    · intro hlen
      rw [Readings.decode]
      simp [hlen]
  · constructor
    · intro h
      by_contra hlen
      rw [Readings.decode] at h
      simp [hlen] at h
    · intro hlen
      rw [Readings.decode]
      simp [hlen]

/-- C10: `Readings::decode` succeeds on every 5-byte buffer — there is no
range or sentinel check beyond the length guard — and the humidity field
is byte 2 copied verbatim, so it can be any value up to 255. -/
theorem decode_no_range_checks (value : List Nat) (h5 : value.length = 5) :
    ∃ r : Readings, Readings.decode value = some r ∧ r.humidity = value.getD 2 0 := by
  exact ⟨_, by rw [Readings.decode, if_neg (by omega)], rfl⟩

/-- Witness for `decode_no_range_checks` at a buffer whose humidity byte is
255, above the 0–100 range of the data model. -/
theorem decode_no_range_checks_witness :
    ([0, 0, 255, 0, 0] : List Nat).length = 5 ∧
      ∃ r : Readings, Readings.decode [0, 0, 255, 0, 0] = some r ∧
        r.humidity = ([0, 0, 255, 0, 0] : List Nat).getD 2 0 :=
  ⟨rfl, decode_no_range_checks [0, 0, 255, 0, 0] rfl⟩

end Mijia

/-! ## The publish-mqtt orchestrator (`src/publish-mqtt/src/main.rs`)

`Instant` is modelled as `Nat`, `DeviceId` and `MacAddress` as `Nat`
(only equality and, for `MacAddress`, hashing/lookup are used by this
code), and the homie telemetry client as a log of emitted commands. -/

namespace PublishMqtt

open Mijia (Readings)

/-- `ConnectionStatus` from `main.rs`. -/
inductive ConnectionStatus where
  | Unknown : ConnectionStatus
  | Connecting (reserved_until : Nat) : ConnectionStatus
  | SubscribingFailedOnce : ConnectionStatus
  | WatchdogTimeOut : ConnectionStatus
  | Disconnected : ConnectionStatus
  | MarkedDisconnected : ConnectionStatus
  | Connected : ConnectionStatus
deriving DecidableEq, Repr

/-- `Sensor` from `main.rs` (`node_id` is derived from the MAC address,
and since we model `MacAddress` as `Nat` the node id is that number). -/
structure Sensor where
  id : Nat
  mac_address : Nat
  name : String
  last_update_timestamp : Nat
  connection_status : ConnectionStatus
deriving DecidableEq, Repr

/-- `Sensor::node_id` (MAC rendered without colons; with the MAC as a
`Nat` the rendering is the identity). -/
def Sensor.node_id (s : Sensor) : Nat := s.mac_address

/-- One call on the homie telemetry collaborator, recorded instead of
performed. `publishValue` carries the node, property name and the value
as a `Readings`-derived number (temperature in centicelsius as `Int`). -/
inductive HomieCommand where
  | addNode (node_id : Nat) : HomieCommand
  | removeNode (node_id : Nat) : HomieCommand
  | publishValue (node_id : Nat) (property_id : String) (value : Int) : HomieCommand
deriving DecidableEq, Repr

/-- `Sensor::publish_readings`: refreshes `last_update_timestamp` and
publishes temperature, humidity and battery percent for the node. -/
def Sensor.publish_readings (s : Sensor) (now : Nat) (r : Readings) :
    Sensor × List HomieCommand :=
  ({ s with last_update_timestamp := now },
   [HomieCommand.publishValue s.node_id "temperature" r.temperature,
    HomieCommand.publishValue s.node_id "humidity" (r.humidity : Int),
    HomieCommand.publishValue s.node_id "battery" (r.battery_percent : Int)])

/-- `Sensor::mark_connected`: registers the telemetry node and sets the
status to `Connected`. -/
def Sensor.mark_connected (s : Sensor) : Sensor × List HomieCommand :=
  ({ s with connection_status := ConnectionStatus.Connected },
   [HomieCommand.addNode s.node_id])

/-- `MijiaEvent` from `src/mijia/src/lib.rs`. -/
inductive MijiaEvent where
  | Readings (id : Nat) (readings : Readings) : MijiaEvent
  | HistoryRecordEvt (id : Nat) (record : Mijia.HistoryRecord) : MijiaEvent
  | Disconnected (id : Nat) : MijiaEvent
deriving DecidableEq, Repr

/-- The `MijiaEvent::Readings` arm of `handle_bluetooth_event`, acting on
the first sensor whose `id` matches (`iter_mut().find`): publish the
readings, then if the status is neither `Connected` nor `Connecting`,
`mark_connected`. An unknown id leaves everything unchanged. -/
def handleReadings (now : Nat) (id : Nat) (r : Readings) :
    List Sensor → List Sensor × List HomieCommand
  | [] => ([], [])
  | s :: rest =>
    if s.id = id then
      let pub := s.publish_readings now r
      match pub.1.connection_status with
      | ConnectionStatus.Connected => (pub.1 :: rest, pub.2)
      | ConnectionStatus.Connecting _ => (pub.1 :: rest, pub.2)
      | _ =>
        let mk := pub.1.mark_connected
        (mk.1 :: rest, pub.2 ++ mk.2)
    else
      let tail := handleReadings now id r rest
      (s :: tail.1, tail.2)

/-- The `MijiaEvent::Disconnected` arm of `handle_bluetooth_event`: only a
sensor currently `Connected` moves to `MarkedDisconnected` and has its
node removed; any other status (or an unknown id) changes nothing. -/
def handleDisconnected (id : Nat) :
    List Sensor → List Sensor × List HomieCommand
  | [] => ([], [])
  | s :: rest =>
    if s.id = id then
      if s.connection_status = ConnectionStatus.Connected then
        ({ s with connection_status := ConnectionStatus.MarkedDisconnected } :: rest,
         [HomieCommand.removeNode s.node_id])
      else
        (s :: rest, [])
    else
      let tail := handleDisconnected id rest
      (s :: tail.1, tail.2)

/-- `handle_bluetooth_event` from `main.rs`, as a function from the sensor
list (the registry under the lock) to the new list plus the homie calls
made. The source's match has arms only for `Readings` and `Disconnected`;
history-record events fall through with no effect. -/
def handle_bluetooth_event (sensors : List Sensor) (now : Nat) (event : MijiaEvent) :
    List Sensor × List HomieCommand :=
  match event with
  | MijiaEvent.Readings id r => handleReadings now id r sensors
  | MijiaEvent.Disconnected id => handleDisconnected id sensors
  | MijiaEvent.HistoryRecordEvt _ _ => (sensors, [])

/-- Does a homie command register a node? -/
def HomieCommand.isAddNode : HomieCommand → Bool
  | HomieCommand.addNode _ => true
  | _ => false

/-- Does a homie command remove a node? -/
def HomieCommand.isRemoveNode : HomieCommand → Bool
  | HomieCommand.removeNode _ => true
  | _ => false

theorem handleDisconnected_skip (id : Nat) (t : Sensor) (rest : List Sensor)
    (ht : t.id ≠ id) :
    handleDisconnected id (t :: rest) =
      ((t :: (handleDisconnected id rest).1, (handleDisconnected id rest).2)) := by
  simp [handleDisconnected, ht]

/-- C3: a `Disconnected{id}` event for a registered sensor (the first
entry matching `id`, after a prefix with no matching id) leaves the
registry unchanged and removes no node unless that sensor is exactly
`Connected`; a `Connected` sensor moves to `MarkedDisconnected` and has
its telemetry node removed, all other fields untouched. -/
theorem disconnect_race_tolerance (pre post : List Sensor) (s : Sensor) (id now : Nat)
    (hpre : ∀ t ∈ pre, t.id ≠ id) (hs : s.id = id) :
    (s.connection_status ≠ ConnectionStatus.Connected →
      handle_bluetooth_event (pre ++ s :: post) now (MijiaEvent.Disconnected id) =
        (pre ++ s :: post, [])) ∧
    (s.connection_status = ConnectionStatus.Connected →
      handle_bluetooth_event (pre ++ s :: post) now (MijiaEvent.Disconnected id) =
        (pre ++ { s with connection_status := ConnectionStatus.MarkedDisconnected } :: post,
         [HomieCommand.removeNode s.node_id])) := by
  induction pre with
  | nil =>
    constructor
    · intro hne
      simp [handle_bluetooth_event, handleDisconnected, hs, hne]
    · intro heq
      simp [handle_bluetooth_event, handleDisconnected, hs, heq]
  | cons t pre ih =>
    have ht : t.id ≠ id := hpre t (List.mem_cons_self t pre)
    have ih' := ih (fun u hu => hpre u (List.mem_cons_of_mem t hu))
    simp only [handle_bluetooth_event] at ih' ⊢
    rw [List.cons_append, handleDisconnected_skip id t (pre ++ s :: post) ht]
    constructor
    · intro hne
      rw [ih'.1 hne]
    · intro heq
      rw [ih'.2 heq]
      simp

/-- Witness for `disconnect_race_tolerance`: a single sensor in
`WatchdogTimeOut` receiving a `Disconnected` event stays untouched. -/
theorem disconnect_race_tolerance_witness :
    (∀ t ∈ ([] : List Sensor), t.id ≠ 1) ∧
      (Sensor.mk 1 2 "a" 0 ConnectionStatus.WatchdogTimeOut).id = 1 ∧
      (((Sensor.mk 1 2 "a" 0 ConnectionStatus.WatchdogTimeOut).connection_status ≠
          ConnectionStatus.Connected →
        handle_bluetooth_event
            ([] ++ Sensor.mk 1 2 "a" 0 ConnectionStatus.WatchdogTimeOut :: [])
            0 (MijiaEvent.Disconnected 1) =
          ([] ++ Sensor.mk 1 2 "a" 0 ConnectionStatus.WatchdogTimeOut :: [], [])) ∧
      ((Sensor.mk 1 2 "a" 0 ConnectionStatus.WatchdogTimeOut).connection_status =
          ConnectionStatus.Connected →
        handle_bluetooth_event
            ([] ++ Sensor.mk 1 2 "a" 0 ConnectionStatus.WatchdogTimeOut :: [])
            0 (MijiaEvent.Disconnected 1) =
          ([] ++ { (Sensor.mk 1 2 "a" 0 ConnectionStatus.WatchdogTimeOut) with
              connection_status := ConnectionStatus.MarkedDisconnected } :: [],
           [HomieCommand.removeNode
              (Sensor.mk 1 2 "a" 0 ConnectionStatus.WatchdogTimeOut).node_id]))) :=
  ⟨by simp, rfl,
    disconnect_race_tolerance [] []
      (Sensor.mk 1 2 "a" 0 ConnectionStatus.WatchdogTimeOut) 1 0 (by simp) rfl⟩

theorem handleReadings_skip (now id : Nat) (r : Readings) (t : Sensor)
    (rest : List Sensor) (ht : t.id ≠ id) :
    handleReadings now id r (t :: rest) =
      (t :: (handleReadings now id r rest).1, (handleReadings now id r rest).2) := by
  simp [handleReadings, ht]

/-- C4: a `Readings{id, readings}` event for a registered sensor (the
first entry matching `id`) always publishes the three property values and
refreshes `last_update_timestamp`; if the status was `Connected` or
`Connecting` nothing else happens (in particular, no node registration),
otherwise the sensor transitions to `Connected` and its telemetry node is
registered exactly once. -/
theorem readings_self_healing (pre post : List Sensor) (s : Sensor) (id now : Nat)
    (r : Readings) (hpre : ∀ t ∈ pre, t.id ≠ id) (hs : s.id = id) :
    ((s.connection_status = ConnectionStatus.Connected ∨
        ∃ ru, s.connection_status = ConnectionStatus.Connecting ru) →
      handle_bluetooth_event (pre ++ s :: post) now (MijiaEvent.Readings id r) =
        (pre ++ { s with last_update_timestamp := now } :: post,
          (s.publish_readings now r).2) ∧
      List.countP (fun c => c.isAddNode) (s.publish_readings now r).2 = 0) ∧
    ((s.connection_status ≠ ConnectionStatus.Connected ∧
        ∀ ru, s.connection_status ≠ ConnectionStatus.Connecting ru) →
      handle_bluetooth_event (pre ++ s :: post) now (MijiaEvent.Readings id r) =
        (pre ++ { s with
                  last_update_timestamp := now,
                  connection_status := ConnectionStatus.Connected } :: post,
          (s.publish_readings now r).2 ++ [HomieCommand.addNode s.node_id]) ∧
      List.countP (fun c => c.isAddNode)
          ((s.publish_readings now r).2 ++ [HomieCommand.addNode s.node_id]) = 1) := by
  induction pre with
  | nil =>
    constructor
    · intro hc
      refine ⟨?_, by simp [Sensor.publish_readings, HomieCommand.isAddNode]⟩
      rcases hc with hc | ⟨ru, hc⟩ <;>
        simp [handle_bluetooth_event, handleReadings, hs, Sensor.publish_readings, hc]
    · rintro ⟨hnc, hncg⟩
      refine ⟨?_, by simp [Sensor.publish_readings, HomieCommand.isAddNode]⟩
      cases hst : s.connection_status with
      | Connected => exact absurd hst hnc
      | Connecting ru => exact absurd hst (hncg ru)
      | _ =>
        simp [handle_bluetooth_event, handleReadings, hs, Sensor.publish_readings,
          Sensor.mark_connected, Sensor.node_id, hst]
  | cons t pre ih =>
    have ht : t.id ≠ id := hpre t (List.mem_cons_self t pre)
    have ih' := ih (fun u hu => hpre u (List.mem_cons_of_mem t hu))
    simp only [handle_bluetooth_event] at ih' ⊢
    rw [List.cons_append, handleReadings_skip now id r t (pre ++ s :: post) ht]
    constructor
    · intro hc
      refine ⟨?_, (ih'.1 hc).2⟩
      rw [(ih'.1 hc).1]
      simp
    · intro hc
      refine ⟨?_, (ih'.2 hc).2⟩
      rw [(ih'.2 hc).1]
      simp

/-- Witness for `readings_self_healing`: a sensor in `WatchdogTimeOut`
receives readings; by the theorem's second clause it self-heals to
`Connected` with exactly one node registration. -/
theorem readings_self_healing_witness :
    (∀ t ∈ ([] : List Sensor), t.id ≠ 1) ∧
      (Sensor.mk 1 2 "a" 0 ConnectionStatus.WatchdogTimeOut).id = 1 ∧
      ((((Sensor.mk 1 2 "a" 0 ConnectionStatus.WatchdogTimeOut).connection_status =
            ConnectionStatus.Connected ∨
          ∃ ru, (Sensor.mk 1 2 "a" 0 ConnectionStatus.WatchdogTimeOut).connection_status =
            ConnectionStatus.Connecting ru) →
        handle_bluetooth_event
            ([] ++ Sensor.mk 1 2 "a" 0 ConnectionStatus.WatchdogTimeOut :: [])
            5 (MijiaEvent.Readings 1 (Mijia.Readings.mk 513 3 2564 46)) =
          ([] ++ { (Sensor.mk 1 2 "a" 0 ConnectionStatus.WatchdogTimeOut) with
                   last_update_timestamp := 5 } :: [],
            ((Sensor.mk 1 2 "a" 0 ConnectionStatus.WatchdogTimeOut).publish_readings
              5 (Mijia.Readings.mk 513 3 2564 46)).2) ∧
        List.countP (fun c => c.isAddNode)
            ((Sensor.mk 1 2 "a" 0 ConnectionStatus.WatchdogTimeOut).publish_readings
              5 (Mijia.Readings.mk 513 3 2564 46)).2 = 0) ∧
      (((Sensor.mk 1 2 "a" 0 ConnectionStatus.WatchdogTimeOut).connection_status ≠
            ConnectionStatus.Connected ∧
          ∀ ru, (Sensor.mk 1 2 "a" 0 ConnectionStatus.WatchdogTimeOut).connection_status ≠
            ConnectionStatus.Connecting ru) →
        handle_bluetooth_event
            ([] ++ Sensor.mk 1 2 "a" 0 ConnectionStatus.WatchdogTimeOut :: [])
            5 (MijiaEvent.Readings 1 (Mijia.Readings.mk 513 3 2564 46)) =
          ([] ++ { (Sensor.mk 1 2 "a" 0 ConnectionStatus.WatchdogTimeOut) with
                   last_update_timestamp := 5,
                   connection_status := ConnectionStatus.Connected } :: [],
            ((Sensor.mk 1 2 "a" 0 ConnectionStatus.WatchdogTimeOut).publish_readings
                5 (Mijia.Readings.mk 513 3 2564 46)).2 ++
              [HomieCommand.addNode
                (Sensor.mk 1 2 "a" 0 ConnectionStatus.WatchdogTimeOut).node_id]) ∧
        List.countP (fun c => c.isAddNode)
            (((Sensor.mk 1 2 "a" 0 ConnectionStatus.WatchdogTimeOut).publish_readings
                5 (Mijia.Readings.mk 513 3 2564 46)).2 ++
              [HomieCommand.addNode
                (Sensor.mk 1 2 "a" 0 ConnectionStatus.WatchdogTimeOut).node_id]) = 1)) :=
  ⟨by simp, rfl,
    readings_self_healing [] [] (Sensor.mk 1 2 "a" 0 ConnectionStatus.WatchdogTimeOut)
      1 5 (Mijia.Readings.mk 513 3 2564 46) (by simp) rfl⟩

/-! ## Discovery (`check_for_sensors`) -/

/-- `SensorProps` from `src/mijia/src/lib.rs`. -/
structure SensorProps where
  id : Nat
  mac_address : Nat
deriving DecidableEq, Repr

/-- `Sensor::new`: looks the display name up in the configured map,
falling back to the MAC address rendered as text. -/
def Sensor.new (props : SensorProps) (sensor_names : List (Nat × String)) (now : Nat) :
    Sensor :=
  { id := props.id,
    mac_address := props.mac_address,
    name :=
      match sensor_names.lookup props.mac_address with
      | some n => n
      | none => toString props.mac_address,
    last_update_timestamp := now,
    connection_status := ConnectionStatus.Unknown }

/-- `check_for_sensors` from `main.rs`: for each discovered sensor, if its
MAC is in the configured name map and no registered sensor already has
that MAC, push a new `Sensor`. The membership test runs against the
registry as it grows during the loop. -/
def check_for_sensors (sensor_names : List (Nat × String)) (now : Nat) :
    List Sensor → List SensorProps → List Sensor
  | sensors, [] => sensors
  | sensors, props :: rest =>
    if (sensor_names.lookup props.mac_address).isSome ∧
        (sensors.find? fun s => s.mac_address == props.mac_address).isNone then
      check_for_sensors sensor_names now
        (sensors ++ [Sensor.new props sensor_names now]) rest
    else
      check_for_sensors sensor_names now sensors rest

theorem check_for_sensors_append (sensor_names : List (Nat × String)) (now : Nat)
    (sensors : List Sensor) (discovered : List SensorProps) :
    ∃ added, check_for_sensors sensor_names now sensors discovered = sensors ++ added := by
  induction discovered generalizing sensors with
  | nil => exact ⟨[], by simp [check_for_sensors]⟩
  | cons props rest ih =>
    rw [check_for_sensors]
    split
    · obtain ⟨a, ha⟩ := ih (sensors ++ [Sensor.new props sensor_names now])
      exact ⟨Sensor.new props sensor_names now :: a, by rw [ha]; simp⟩
    · exact ih sensors

theorem mem_mac_check_for_sensors (sensor_names : List (Nat × String)) (now : Nat)
    (sensors : List Sensor) (discovered : List SensorProps) (mac : Nat)
    (h : mac ∈ sensors.map Sensor.mac_address) :
    mac ∈ (check_for_sensors sensor_names now sensors discovered).map Sensor.mac_address := by
  obtain ⟨a, ha⟩ := check_for_sensors_append sensor_names now sensors discovered
  rw [ha, List.map_append]
  exact List.mem_append_left _ h

theorem check_for_sensors_covers (sensor_names : List (Nat × String)) (now : Nat)
    (sensors : List Sensor) (discovered : List SensorProps) :
    ∀ props ∈ discovered, (sensor_names.lookup props.mac_address).isSome →
      props.mac_address ∈
        (check_for_sensors sensor_names now sensors discovered).map Sensor.mac_address := by
  induction discovered generalizing sensors with
  | nil => intro props h; simp at h
  | cons q rest ih =>
    intro props hmem hlook
    rcases List.mem_cons.mp hmem with rfl | hmem'
    · rw [check_for_sensors]
      split
      · apply mem_mac_check_for_sensors
        simp [Sensor.new]
      · rename_i hcond
        rw [not_and_or] at hcond
        rcases hcond with hl | hf
        · exact absurd hlook (by simpa using hl)
        · apply mem_mac_check_for_sensors
          have : (sensors.find? fun s => s.mac_address == props.mac_address).isSome := by
            simpa using hf
          rw [List.find?_isSome] at this
          obtain ⟨s, hs, hps⟩ := this
          exact List.mem_map.mpr ⟨s, hs, by simpa using hps⟩
    · rw [check_for_sensors]
      split
      · exact ih _ props hmem' hlook
      · exact ih _ props hmem' hlook

theorem check_for_sensors_noop (sensor_names : List (Nat × String)) (now : Nat)
    (sensors : List Sensor) (discovered : List SensorProps)
    (h : ∀ props ∈ discovered, (sensor_names.lookup props.mac_address).isSome →
      props.mac_address ∈ sensors.map Sensor.mac_address) :
    check_for_sensors sensor_names now sensors discovered = sensors := by
  induction discovered with
  | nil => rw [check_for_sensors]
  | cons props rest ih =>
    rw [check_for_sensors]
    have hrest : ∀ q ∈ rest, (sensor_names.lookup q.mac_address).isSome →
        q.mac_address ∈ sensors.map Sensor.mac_address :=
      fun q hq => h q (List.mem_cons_of_mem props hq)
    split
    · rename_i hcond
      exfalso
      have hmac := h props (List.mem_cons_self props rest) hcond.1
      obtain ⟨s, hs, hsm⟩ := List.mem_map.mp hmac
      have : (sensors.find? fun s => s.mac_address == props.mac_address).isSome :=
        List.find?_isSome.mpr ⟨s, hs, by simpa using hsm⟩
      have h2 := hcond.2
      rw [Option.isNone_iff_eq_none] at h2
      rw [h2] at this
      simp at this
    · exact ih hrest

theorem check_for_sensors_nodup (sensor_names : List (Nat × String)) (now : Nat)
    (sensors : List Sensor) (discovered : List SensorProps)
    (hnd : (sensors.map Sensor.mac_address).Nodup) :
    ((check_for_sensors sensor_names now sensors discovered).map Sensor.mac_address).Nodup := by
  induction discovered generalizing sensors with
  | nil => rw [check_for_sensors]; exact hnd
  | cons props rest ih =>
    rw [check_for_sensors]
    split
    · rename_i hcond
      apply ih
      rw [List.map_append, List.nodup_append]
      refine ⟨hnd, by simp, ?_⟩
      intro mac hmac hmac'
      simp [Sensor.new] at hmac'
      subst hmac'
      obtain ⟨s, hs, hsm⟩ := List.mem_map.mp hmac
      have : (sensors.find? fun s => s.mac_address == props.mac_address).isSome :=
        List.find?_isSome.mpr ⟨s, hs, by simpa using hsm⟩
      have h2 := hcond.2
      rw [Option.isNone_iff_eq_none] at h2
      rw [h2] at this
      simp at this
    · exact ih sensors hnd

/-- C5: `check_for_sensors` preserves the at-most-one-entry-per-MAC
invariant, and a second run over the same discovered device list is a
no-op (no duplicate entries, nothing added beyond the first run). -/
theorem idempotent_discovery (sensor_names : List (Nat × String)) (now now2 : Nat)
    (sensors : List Sensor) (discovered : List SensorProps)
    (hnd : (sensors.map Sensor.mac_address).Nodup) :
    ((check_for_sensors sensor_names now sensors discovered).map Sensor.mac_address).Nodup ∧
    check_for_sensors sensor_names now2
        (check_for_sensors sensor_names now sensors discovered) discovered =
      check_for_sensors sensor_names now sensors discovered := by
  refine ⟨check_for_sensors_nodup sensor_names now sensors discovered hnd, ?_⟩
  apply check_for_sensors_noop
  intro props hmem hlook
  exact check_for_sensors_covers sensor_names now sensors discovered props hmem hlook

/-- Witness for `idempotent_discovery`: one configured sensor, discovered
twice in the same scan. -/
theorem idempotent_discovery_witness :
    (([] : List Sensor).map Sensor.mac_address).Nodup ∧
      (((check_for_sensors [(2, "a")] 0 [] [SensorProps.mk 1 2, SensorProps.mk 1 2]).map
          Sensor.mac_address).Nodup ∧
      check_for_sensors [(2, "a")] 7
          (check_for_sensors [(2, "a")] 0 [] [SensorProps.mk 1 2, SensorProps.mk 1 2])
          [SensorProps.mk 1 2, SensorProps.mk 1 2] =
        check_for_sensors [(2, "a")] 0 [] [SensorProps.mk 1 2, SensorProps.mk 1 2]) :=
  ⟨List.nodup_nil,
    idempotent_discovery [(2, "a")] 0 7 []
      [SensorProps.mk 1 2, SensorProps.mk 1 2] List.nodup_nil⟩

end PublishMqtt

/-! ## Bulk history retrieval (`MijiaSession::get_all_history`) -/

namespace Mijia

/-- One iteration of the event-collection loop in `get_all_history`
(`src/mijia/src/lib.rs`): a history record for the requested sensor whose
index lies in `[start, stop)` is stored at offset `index - start`; a
record for another sensor or with an out-of-range index, and any
non-history event, is logged and dropped, leaving the array unchanged. -/
def storeHistoryRecord (sensorId start stop : Nat)
    (history : List (Option HistoryRecord)) (event : PublishMqtt.MijiaEvent) :
    List (Option HistoryRecord) :=
  match event with
  | PublishMqtt.MijiaEvent.HistoryRecordEvt rid record =>
    if rid = sensorId then
      if start ≤ record.index ∧ record.index < stop then
        history.set (record.index - start) (some record)
      else history
    else history
  | _ => history

/-- The pure content of `get_all_history`: starting from a `none`-filled
array of length `range.len()` (`stop - start`), fold the incoming event
sequence with `storeHistoryRecord`. The loop's termination condition (the
inactivity timeout) determines only how many events are seen, i.e. the
`events` list. -/
def get_all_history (sensorId start stop : Nat)
    (events : List PublishMqtt.MijiaEvent) : List (Option HistoryRecord) :=
  events.foldl (storeHistoryRecord sensorId start stop)
    (List.replicate (stop - start) none)

theorem storeHistoryRecord_length (sensorId start stop : Nat)
    (history : List (Option HistoryRecord)) (event : PublishMqtt.MijiaEvent) :
    (storeHistoryRecord sensorId start stop history event).length = history.length := by
  cases event with
  | HistoryRecordEvt rid record =>
    rw [storeHistoryRecord]
    split
    · split
      · exact List.length_set history _ _
      · rfl
    · rfl
  | Readings id r => rfl
  | Disconnected id => rfl

theorem get_all_history_length (sensorId start stop : Nat)
    (events : List PublishMqtt.MijiaEvent) :
    (get_all_history sensorId start stop events).length = stop - start := by
  rw [get_all_history]
  have : ∀ (history : List (Option HistoryRecord)),
      (events.foldl (storeHistoryRecord sensorId start stop) history).length =
        history.length := by
    induction events with
    | nil => intro history; rfl
    | cons e rest ih =>
      intro history
      rw [List.foldl_cons, ih, storeHistoryRecord_length]
  rw [this, List.length_replicate]

theorem get?_replicate_none (n j : Nat) (hj : j < n) :
    (List.replicate n (none : Option HistoryRecord)).get? j = some none := by
  induction n generalizing j with
  | zero => omega
  | succ n ih =>
    cases j with
    | zero => rfl
    | succ j => exact ih j (by omega)

theorem foldl_store_untouched (sensorId start stop j : Nat)
    (events : List PublishMqtt.MijiaEvent)
    (hevents : ∀ record : HistoryRecord,
      PublishMqtt.MijiaEvent.HistoryRecordEvt sensorId record ∈ events →
        record.index ≠ start + j) :
    ∀ history : List (Option HistoryRecord),
      (events.foldl (storeHistoryRecord sensorId start stop) history).get? j =
        history.get? j := by
  induction events with
  | nil => intro history; rfl
  | cons e rest ih =>
    intro history
    rw [List.foldl_cons,
      ih (fun record hmem => hevents record (List.mem_cons_of_mem e hmem))]
    cases e with
    | HistoryRecordEvt rid record =>
      rw [storeHistoryRecord]
      split
      · rename_i hrid
        subst hrid
        split
        · rename_i hrange
          have hne : record.index - start ≠ j := by
            have := hevents record (List.mem_cons_self _ _)
            omega
          exact List.get?_set_ne _ _ hne
        · rfl
      · rfl
    | Readings id r => rfl
    | Disconnected id => rfl

/-- C6: in the `get_all_history` collection loop, (a) the result always
has length `stop - start`; (b) a history record for the requested sensor
with an in-range index is stored at offset `index - start` — an in-bounds
position — and leaves every other slot unchanged; (c) a record with an
out-of-range index, or for another sensor, changes nothing; (d) a slot no
incoming record addresses is still `none` in the final result. -/
theorem history_offset_mapping (sensorId start stop : Nat)
    (events : List PublishMqtt.MijiaEvent)
    (history : List (Option HistoryRecord)) (record : HistoryRecord) (rid j : Nat)
    (hj : j < stop - start)
    (hevents : ∀ r : HistoryRecord,
      PublishMqtt.MijiaEvent.HistoryRecordEvt sensorId r ∈ events →
        r.index ≠ start + j) :
    (get_all_history sensorId start stop events).length = stop - start ∧
    (rid = sensorId → start ≤ record.index → record.index < stop →
      storeHistoryRecord sensorId start stop history
          (PublishMqtt.MijiaEvent.HistoryRecordEvt rid record) =
        history.set (record.index - start) (some record) ∧
      record.index - start < stop - start ∧
      ∀ k, k ≠ record.index - start →
        (storeHistoryRecord sensorId start stop history
            (PublishMqtt.MijiaEvent.HistoryRecordEvt rid record)).get? k =
          history.get? k) ∧
    ((rid ≠ sensorId ∨ record.index < start ∨ stop ≤ record.index) →
      storeHistoryRecord sensorId start stop history
          (PublishMqtt.MijiaEvent.HistoryRecordEvt rid record) = history) ∧
    (get_all_history sensorId start stop events).get? j = some none := by
  refine ⟨get_all_history_length sensorId start stop events, ?_, ?_, ?_⟩
  · intro hrid hlo hhi
    subst hrid
    have hstore : storeHistoryRecord rid start stop history
        (PublishMqtt.MijiaEvent.HistoryRecordEvt rid record) =
        history.set (record.index - start) (some record) := by
      rw [storeHistoryRecord]
      simp [hlo, hhi]
    refine ⟨hstore, by omega, ?_⟩
    intro k hk
    rw [hstore]
    exact List.get?_set_ne _ _ (fun h => hk h.symm)
  · intro hout
    rw [storeHistoryRecord]
    rcases hout with h | h | h
    · simp [h]
    · split
      · rw [if_neg (by omega)]
      · rfl
    · split
      · rw [if_neg (by omega)]
      · rfl
  · rw [get_all_history, foldl_store_untouched sensorId start stop j events hevents]
    exact get?_replicate_none (stop - start) j hj

/-- Witness for `history_offset_mapping`: range `[5, 8)`, one incoming
record with index 6, probe slot 0 and an in-range record with index 5. -/
theorem history_offset_mapping_witness :
    (0 < 8 - 5) ∧
    (∀ r : HistoryRecord,
      PublishMqtt.MijiaEvent.HistoryRecordEvt 1 r ∈
          [PublishMqtt.MijiaEvent.HistoryRecordEvt 1 (HistoryRecord.mk 6 0 0 0)] →
        r.index ≠ 5 + 0) ∧
    ((get_all_history 1 5 8
        [PublishMqtt.MijiaEvent.HistoryRecordEvt 1 (HistoryRecord.mk 6 0 0 0)]).length =
          8 - 5 ∧
    ((1 : Nat) = 1 → 5 ≤ (HistoryRecord.mk 5 0 0 0).index →
        (HistoryRecord.mk 5 0 0 0).index < 8 →
      storeHistoryRecord 1 5 8 [none]
          (PublishMqtt.MijiaEvent.HistoryRecordEvt 1 (HistoryRecord.mk 5 0 0 0)) =
        [none].set ((HistoryRecord.mk 5 0 0 0).index - 5)
          (some (HistoryRecord.mk 5 0 0 0)) ∧
      (HistoryRecord.mk 5 0 0 0).index - 5 < 8 - 5 ∧
      ∀ k, k ≠ (HistoryRecord.mk 5 0 0 0).index - 5 →
        (storeHistoryRecord 1 5 8 [none]
            (PublishMqtt.MijiaEvent.HistoryRecordEvt 1 (HistoryRecord.mk 5 0 0 0))).get? k =
          [none].get? k) ∧
    (((1 : Nat) ≠ 1 ∨ (HistoryRecord.mk 5 0 0 0).index < 5 ∨
        8 ≤ (HistoryRecord.mk 5 0 0 0).index) →
      storeHistoryRecord 1 5 8 [none]
          (PublishMqtt.MijiaEvent.HistoryRecordEvt 1 (HistoryRecord.mk 5 0 0 0)) =
        [none]) ∧
    (get_all_history 1 5 8
        [PublishMqtt.MijiaEvent.HistoryRecordEvt 1 (HistoryRecord.mk 6 0 0 0)]).get? 0 =
      some none) :=
  ⟨by decide,
   by
    intro r hr
    have h := List.mem_singleton.mp hr
    injection h with h1 h2
    subst h2
    decide,
   history_offset_mapping 1 5 8
      [PublishMqtt.MijiaEvent.HistoryRecordEvt 1 (HistoryRecord.mk 6 0 0 0)]
      [none] (HistoryRecord.mk 5 0 0 0) 1 0 (by decide)
      (by
        intro r hr
        have h := List.mem_singleton.mp hr
        injection h with h1 h2
        subst h2
        decide)⟩

end Mijia

/-! ## Round-robin sensor selection (`next_actionable_sensor`) -/

namespace PublishMqtt

/-- `SensorState` from `main.rs`, minus the homie handle (modelled
throughout as a command log). -/
structure SensorState where
  sensors : List Sensor
  next_idx : Nat
deriving DecidableEq, Repr

/-- `next_actionable_sensor` from `main.rs`: look the cursor up in the
sensor list; if it is past the end, reset the cursor to 0 and return
nothing, otherwise return the cursor position and that sensor's status
and advance the cursor by one. -/
def next_actionable_sensor (st : SensorState) :
    Option (Nat × ConnectionStatus) × SensorState :=
  match st.sensors.get? st.next_idx with
  | none => (none, { st with next_idx := 0 })
  | some sensor =>
    (some (st.next_idx, sensor.connection_status),
     { st with next_idx := st.next_idx + 1 })

/-- The selections made over `k` consecutive polling ticks (`none` for a
tick on which `next_actionable_sensor` selects no sensor), with the state
threaded through; `action_next_sensor` acts on exactly the selection this
returns for each tick. -/
def run_ticks (st : SensorState) : Nat → List (Option Nat) × SensorState
  | 0 => ([], st)
  | k + 1 =>
    let step := next_actionable_sensor st
    let rest := run_ticks step.2 k
    (step.1.map Prod.fst :: rest.1, rest.2)

/-- Counterexample to C7 as stated: with a non-empty registry but the
cursor one past the end, the tick selects no sensor at all — it only
resets the cursor to 0 — so "exactly one sensor is selected and actioned
on every tick with a non-empty registry" fails. -/
theorem round_robin_counterexample :
    (SensorState.mk [Sensor.mk 1 2 "a" 0 ConnectionStatus.Unknown] 1).sensors ≠ [] ∧
    (next_actionable_sensor
        (SensorState.mk [Sensor.mk 1 2 "a" 0 ConnectionStatus.Unknown] 1)).1 = none ∧
    (next_actionable_sensor
        (SensorState.mk [Sensor.mk 1 2 "a" 0 ConnectionStatus.Unknown] 1)).2.next_idx
      = 0 :=
  ⟨by simp, rfl, rfl⟩

theorem run_ticks_inbounds (k : Nat) :
    ∀ st : SensorState, st.next_idx + k ≤ st.sensors.length →
      (run_ticks st k).1 = (List.range' st.next_idx k).map some ∧
      (run_ticks st k).2 = { st with next_idx := st.next_idx + k } := by
  induction k with
  | zero =>
    intro st h
    exact ⟨rfl, by simp [run_ticks]⟩
  | succ k ih =>
    intro st h
    have hlt : st.next_idx < st.sensors.length := by omega
    have hstep : next_actionable_sensor st =
        (some (st.next_idx, (st.sensors.get ⟨st.next_idx, hlt⟩).connection_status),
         { st with next_idx := st.next_idx + 1 }) := by
      rw [next_actionable_sensor, List.get?_eq_get hlt]
    have ih' := ih { st with next_idx := st.next_idx + 1 } (by simpa using by omega)
    rw [run_ticks]
    rw [hstep]
    simp only at ih' ⊢
    refine ⟨?_, ?_⟩
    · rw [ih'.1, List.range'_succ]
      rfl
    · rw [ih'.2]
      simp
      omega

theorem run_ticks_add (a b : Nat) :
    ∀ st : SensorState, run_ticks st (a + b) =
      ((run_ticks st a).1 ++ (run_ticks (run_ticks st a).2 b).1,
       (run_ticks (run_ticks st a).2 b).2) := by
  induction a with
  | zero =>
    intro st
    simp [run_ticks]
  | succ a ih =>
    intro st
    have h1 : a + 1 + b = (a + b) + 1 := by omega
    rw [h1, run_ticks, ih (next_actionable_sensor st).2]
    rw [run_ticks]
    simp

/-- C7 amended: on a tick whose cursor is still within the sensor list,
exactly the sensor at the cursor is selected and the cursor advances by
one; on a tick whose cursor has passed the end (which happens on the tick
after the last sensor of a round, even with a non-empty registry) no
sensor is selected and the cursor resets to 0. Consequently, from cursor
0 a full round of `length + 1` ticks selects each sensor index exactly
once, in order, followed by one idle tick, and returns the state to its
starting point — so every sensor is visited before any sensor is visited
twice. -/
theorem round_robin_amended (st : SensorState) :
    (∀ h : st.next_idx < st.sensors.length,
      next_actionable_sensor st =
        (some (st.next_idx, (st.sensors.get ⟨st.next_idx, h⟩).connection_status),
         { st with next_idx := st.next_idx + 1 })) ∧
    (st.sensors.length ≤ st.next_idx →
      next_actionable_sensor st = (none, { st with next_idx := 0 })) ∧
    (st.next_idx = 0 →
      run_ticks st (st.sensors.length + 1) =
        ((List.range st.sensors.length).map some ++ [none], st)) := by
  refine ⟨?_, ?_, ?_⟩
  · intro h
    rw [next_actionable_sensor, List.get?_eq_get h]
  · intro h
    rw [next_actionable_sensor, List.get?_eq_none.mpr h]
  · intro h0
    rw [run_ticks_add st.sensors.length 1 st]
    have hin := run_ticks_inbounds st.sensors.length st (by omega)
    have h2 : (run_ticks st st.sensors.length).2 =
        { st with next_idx := st.sensors.length } := by
      rw [hin.2, h0]
      simp
    have hstep : next_actionable_sensor { st with next_idx := st.sensors.length } =
        (none, { st with next_idx := 0 }) := by
      rw [next_actionable_sensor]
      have : SensorState.sensors { st with next_idx := st.sensors.length } =
          st.sensors := rfl
      rw [List.get?_eq_none.mpr (by simp)]
    have h3 : run_ticks (run_ticks st st.sensors.length).2 1 =
        ([none], st) := by
      rw [h2, run_ticks, run_ticks, hstep]
      simp
      rw [← h0]
    rw [hin.1, h3, h0, List.range_eq_range']

/-- Witness for `round_robin_amended`: two sensors, cursor at 0. -/
theorem round_robin_amended_witness :
    (∀ h : (SensorState.mk [Sensor.mk 1 10 "a" 0 ConnectionStatus.Unknown,
        Sensor.mk 2 20 "b" 0 ConnectionStatus.Connected] 0).next_idx <
          (SensorState.mk [Sensor.mk 1 10 "a" 0 ConnectionStatus.Unknown,
            Sensor.mk 2 20 "b" 0 ConnectionStatus.Connected] 0).sensors.length,
      next_actionable_sensor (SensorState.mk [Sensor.mk 1 10 "a" 0 ConnectionStatus.Unknown,
          Sensor.mk 2 20 "b" 0 ConnectionStatus.Connected] 0) =
        (some ((SensorState.mk [Sensor.mk 1 10 "a" 0 ConnectionStatus.Unknown,
            Sensor.mk 2 20 "b" 0 ConnectionStatus.Connected] 0).next_idx,
          ((SensorState.mk [Sensor.mk 1 10 "a" 0 ConnectionStatus.Unknown,
              Sensor.mk 2 20 "b" 0 ConnectionStatus.Connected] 0).sensors.get
            ⟨(SensorState.mk [Sensor.mk 1 10 "a" 0 ConnectionStatus.Unknown,
                Sensor.mk 2 20 "b" 0 ConnectionStatus.Connected] 0).next_idx,
              h⟩).connection_status),
         SensorState.mk [Sensor.mk 1 10 "a" 0 ConnectionStatus.Unknown,
            Sensor.mk 2 20 "b" 0 ConnectionStatus.Connected] (0 + 1))) ∧
    ((SensorState.mk [Sensor.mk 1 10 "a" 0 ConnectionStatus.Unknown,
        Sensor.mk 2 20 "b" 0 ConnectionStatus.Connected] 0).sensors.length ≤
          (SensorState.mk [Sensor.mk 1 10 "a" 0 ConnectionStatus.Unknown,
            Sensor.mk 2 20 "b" 0 ConnectionStatus.Connected] 0).next_idx →
      next_actionable_sensor (SensorState.mk [Sensor.mk 1 10 "a" 0 ConnectionStatus.Unknown,
          Sensor.mk 2 20 "b" 0 ConnectionStatus.Connected] 0) =
        (none, SensorState.mk [Sensor.mk 1 10 "a" 0 ConnectionStatus.Unknown,
          Sensor.mk 2 20 "b" 0 ConnectionStatus.Connected] 0)) ∧
    ((SensorState.mk [Sensor.mk 1 10 "a" 0 ConnectionStatus.Unknown,
        Sensor.mk 2 20 "b" 0 ConnectionStatus.Connected] 0).next_idx = 0 →
      run_ticks (SensorState.mk [Sensor.mk 1 10 "a" 0 ConnectionStatus.Unknown,
          Sensor.mk 2 20 "b" 0 ConnectionStatus.Connected] 0)
          ((SensorState.mk [Sensor.mk 1 10 "a" 0 ConnectionStatus.Unknown,
            Sensor.mk 2 20 "b" 0 ConnectionStatus.Connected] 0).sensors.length + 1) =
        ((List.range (SensorState.mk [Sensor.mk 1 10 "a" 0 ConnectionStatus.Unknown,
            Sensor.mk 2 20 "b" 0 ConnectionStatus.Connected] 0).sensors.length).map some ++
          [none],
         SensorState.mk [Sensor.mk 1 10 "a" 0 ConnectionStatus.Unknown,
          Sensor.mk 2 20 "b" 0 ConnectionStatus.Connected] 0)) :=
  round_robin_amended (SensorState.mk [Sensor.mk 1 10 "a" 0 ConnectionStatus.Unknown,
    Sensor.mk 2 20 "b" 0 ConnectionStatus.Connected] 0)

/-! ## The sensor-names config file (`hashmap_from_file`) -/

/-- Hex digit value of a character, `none` for a non-hex character. -/
def hexDigit? (c : Char) : Option Nat :=
  if '0' ≤ c ∧ c ≤ '9' then some (c.toNat - '0'.toNat)
  else if 'a' ≤ c ∧ c ≤ 'f' then some (c.toNat - 'a'.toNat + 10)
  else if 'A' ≤ c ∧ c ≤ 'F' then some (c.toNat - 'A'.toNat + 10)
  else none

/-- Two hex digits to a byte. -/
def parseHexByte (p : List Char) : Option Nat :=
  match p with
  | [h, l] => do
    let hv ← hexDigit? h
    let lv ← hexDigit? l
    pure (16 * hv + lv)
  | _ => none

/-- Split a character list at every occurrence of `sep` (like Rust's
`str::split`). -/
def splitOnChar (sep : Char) : List Char → List (List Char)
  | [] => [[]]
  | c :: rest =>
    match splitOnChar sep rest with
    | [] => [[c]]
    | p :: ps => if c = sep then [] :: p :: ps else (c :: p) :: ps

/-- Modelled from the spec: `MacAddress`'s string parser lives in the
`bluetooth` module, absent from the provided files; the spec says a
`MacAddress` is a 6-byte hardware address parseable from its
colon-separated-hex text form. The model accepts exactly six
two-hex-digit groups separated by `:` and yields the six bytes. -/
def MacAddress.parse (s : List Char) : Option (List Nat) :=
  let parts := splitOnChar ':' s
  if parts.length = 6 then parts.mapM parseHexByte else none

/-- Rust's `splitn(2, sep)`: at most two pieces, split at the first
occurrence of `sep` only; one piece when `sep` does not occur. -/
def splitn2 (sep : Char) (line : List Char) : List (List Char) :=
  if sep ∈ line then
    [line.takeWhile (· ≠ sep), (line.dropWhile (· ≠ sep)).tail]
  else [line]

/-- `HashMap::insert` on the association-list view of the map: replace
the value when the key is present, append otherwise. -/
def insertAssoc (k : List Nat) (v : List Char) :
    List (List Nat × List Char) → List (List Nat × List Char)
  | [] => [(k, v)]
  | (q, w) :: rest =>
    if q = k then (k, v) :: rest else (q, w) :: insertAssoc k v rest

/-- The line loop of `hashmap_from_file`: split each line with
`splitn(2, '=')`; bail out on a line without any `=`; parse the part
before the first `=` as a MAC address, a failure also propagating as a
fatal error (`map.insert(parts[0].parse()?, …)`); otherwise insert. The
error payload carries the offending text. -/
def hashmap_lines : List (List Nat × List Char) → List (List Char) →
    Except (List Char) (List (List Nat × List Char))
  | map, [] => Except.ok map
  | map, line :: rest =>
    let parts := splitn2 '=' line
    if parts.length ≠ 2 then Except.error line
    else
      match MacAddress.parse (parts.getD 0 []) with
      | none => Except.error (parts.getD 0 [])
      | some mac => hashmap_lines (insertAssoc mac (parts.getD 1 []) map) rest

/-- `hashmap_from_file` from `main.rs`, over the file's lines (`none`
models `File::open` failing, i.e. the file does not exist). -/
def hashmap_from_file (file : Option (List (List Char))) :
    Except (List Char) (List (List Nat × List Char)) :=
  match file with
  | none => Except.ok []
  | some lines => hashmap_lines [] lines

/-- Counterexample to C8 as stated: the line `AA:BB:CC:DD:EE:FF=a=b`
contains two `=` separators, not exactly one, yet `hashmap_from_file`
accepts it (Rust's `splitn(2, '=')` only fails on a line with no `=` at
all); and the line `nota mac=bob` contains exactly one `=` yet is a
fatal error, because the part before the `=` is not a MAC address. -/
theorem hashmap_from_file_counterexample :
    (List.count '=' "AA:BB:CC:DD:EE:FF=a=b".toList = 2 ∧
      (hashmap_from_file (some ["AA:BB:CC:DD:EE:FF=a=b".toList])).isOk = true) ∧
    (List.count '=' "nota mac=bob".toList = 1 ∧
      (hashmap_from_file (some ["nota mac=bob".toList])).isOk = false) := by
  refine ⟨⟨?_, ?_⟩, ?_, ?_⟩ <;> decide

/-- C8 amended: a missing file yields the empty mapping (no error); a
line with no `=` at all is a fatal error; a line whose segment before the
first `=` does not parse as a MAC address is a fatal error; every line
whose segment before the first `=` is a valid MAC address is accepted —
even when the remainder contains further `=` characters — mapping that
MAC to the entire remainder of the line. -/
theorem hashmap_from_file_amended :
    hashmap_from_file none = Except.ok [] ∧
    (∀ map line rest, '=' ∉ line →
      hashmap_lines map (line :: rest) = Except.error line) ∧
    (∀ map line rest, '=' ∈ line →
      MacAddress.parse (line.takeWhile (· ≠ '=')) = none →
      hashmap_lines map (line :: rest) =
        Except.error (line.takeWhile (· ≠ '='))) ∧
    (∀ map line rest mac, '=' ∈ line →
      MacAddress.parse (line.takeWhile (· ≠ '=')) = some mac →
      hashmap_lines map (line :: rest) =
        hashmap_lines (insertAssoc mac ((line.dropWhile (· ≠ '=')).tail) map) rest) := by
  refine ⟨rfl, ?_, ?_, ?_⟩
  · intro map line rest h
    rw [hashmap_lines]
    simp [splitn2, h]
  · intro map line rest h hp
    rw [hashmap_lines]
    simp only [ne_eq, decide_not] at hp
    simp [splitn2, h, hp]
  · intro map line rest mac h hp
    rw [hashmap_lines]
    simp only [ne_eq, decide_not] at hp
    simp [splitn2, h, hp]

/-- Witness for `hashmap_from_file_amended`: applies its clauses at the
lines `AA:BB:CC:DD:EE:FF=kitchen`, `garbage` and `nota mac=bob`. -/
theorem hashmap_from_file_amended_witness :
    ('=' ∉ "garbage".toList ∧
      hashmap_lines [] ["garbage".toList] = Except.error "garbage".toList) ∧
    ('=' ∈ "nota mac=bob".toList ∧
      MacAddress.parse ("nota mac=bob".toList.takeWhile (· ≠ '=')) = none ∧
      hashmap_lines [] ["nota mac=bob".toList] =
        Except.error ("nota mac=bob".toList.takeWhile (· ≠ '='))) ∧
    ('=' ∈ "AA:BB:CC:DD:EE:FF=kitchen".toList ∧
      MacAddress.parse ("AA:BB:CC:DD:EE:FF=kitchen".toList.takeWhile (· ≠ '=')) =
        some [0xAA, 0xBB, 0xCC, 0xDD, 0xEE, 0xFF] ∧
      hashmap_lines [] ["AA:BB:CC:DD:EE:FF=kitchen".toList] =
        hashmap_lines
          (insertAssoc [0xAA, 0xBB, 0xCC, 0xDD, 0xEE, 0xFF]
            (("AA:BB:CC:DD:EE:FF=kitchen".toList.dropWhile (· ≠ '=')).tail) []) []) :=
  ⟨⟨by decide, hashmap_from_file_amended.2.1 [] "garbage".toList [] (by decide)⟩,
   ⟨by decide, by decide,
    hashmap_from_file_amended.2.2.1 [] "nota mac=bob".toList [] (by decide) (by decide)⟩,
   ⟨by decide, by decide,
    hashmap_from_file_amended.2.2.2 [] "AA:BB:CC:DD:EE:FF=kitchen".toList []
      [0xAA, 0xBB, 0xCC, 0xDD, 0xEE, 0xFF] (by decide) (by decide)⟩⟩

/-! ## Connect and subscribe (`connect_start_sensor` / `connect_sensor_at_idx`) -/

/-- Outcomes chosen by the transport collaborator for the calls
`connect_start_sensor` may make (`connect`, `start_notify_sensor`, and
the explicit `disconnect`). -/
structure TransportOutcome where
  connectOk : Bool
  subscribeOk : Bool
  disconnectOk : Bool
deriving DecidableEq, Repr

/-- What `connect_start_sensor` produces for its caller: success, an
error return, or the `panic!("This should never happen.")` on a
`Connected` prior status. -/
inductive CsResult where
  | ok : CsResult
  | error : CsResult
  | panicked : CsResult
deriving DecidableEq, Repr

/-- `connect_start_sensor` from `main.rs`: connect (an error propagates
immediately), then subscribe; on subscribe failure the mutation depends
on the sensor's prior status — any status other than
`SubscribingFailedOnce`/`Connected` becomes `SubscribingFailedOnce`
with no disconnect; `SubscribingFailedOnce` issues an explicit
disconnect (whose own failure propagates with `?` *before* the status is
updated) and then becomes `Disconnected`; `Connected` panics. Returns
(mutated snapshot, whether a disconnect was issued, outcome). -/
def connect_start_sensor (sensor : Sensor) (t : TransportOutcome) :
    Sensor × Bool × CsResult :=
  if !t.connectOk then (sensor, false, CsResult.error)
  else if t.subscribeOk then (sensor, false, CsResult.ok)
  else
    match sensor.connection_status with
    | ConnectionStatus.Unknown
    | ConnectionStatus.Connecting _
    | ConnectionStatus.Disconnected
    | ConnectionStatus.MarkedDisconnected
    | ConnectionStatus.WatchdogTimeOut =>
      ({ sensor with connection_status := ConnectionStatus.SubscribingFailedOnce },
       false, CsResult.error)
    | ConnectionStatus.SubscribingFailedOnce =>
      if t.disconnectOk then
        ({ sensor with connection_status := ConnectionStatus.Disconnected },
         true, CsResult.error)
      else
        (sensor, true, CsResult.error)
    | ConnectionStatus.Connected => (sensor, false, CsResult.panicked)

instance : Inhabited Sensor :=
  ⟨Sensor.mk 0 0 "" 0 ConnectionStatus.Unknown⟩

/-- `connect_sensor_at_idx` from `main.rs`: snapshot the sensor at `idx`,
reserve it in the registry as `Connecting{now + reservation_timeout}`,
run `connect_start_sensor` on the snapshot with the lock released, then
write the snapshot back. A `connect_start_sensor` error is only printed:
the function still returns `ok` to the orchestrator loop. On success the
node is registered (`mark_connected`) and the timestamp refreshed. -/
def connect_sensor_at_idx (sensors : List Sensor) (now timeout idx : Nat)
    (t : TransportOutcome) : List Sensor × List HomieCommand × CsResult :=
  let snapshot := sensors.getD idx default
  let reserved := sensors.set idx
    { snapshot with connection_status := ConnectionStatus.Connecting (now + timeout) }
  let res := connect_start_sensor snapshot t
  match res.2.2 with
  | CsResult.error => (reserved.set idx res.1, [], CsResult.ok)
  | CsResult.ok =>
    let mk := res.1.mark_connected
    (reserved.set idx { mk.1 with last_update_timestamp := now }, mk.2, CsResult.ok)
  | CsResult.panicked => (reserved, [], CsResult.panicked)

/-- Counterexample to C9 as stated: prior status `SubscribingFailedOnce`,
connect succeeds, subscribe fails, and the explicit disconnect *also*
fails — the disconnect is issued but the status stays
`SubscribingFailedOnce`, not `Disconnected` (the `?` on the disconnect
call returns before the status assignment). -/
theorem subscribe_failure_counterexample :
    (connect_start_sensor (Sensor.mk 1 2 "a" 0 ConnectionStatus.SubscribingFailedOnce)
        (TransportOutcome.mk true false false)).2.1 = true ∧
    (connect_start_sensor (Sensor.mk 1 2 "a" 0 ConnectionStatus.SubscribingFailedOnce)
        (TransportOutcome.mk true false false)).2.2 = CsResult.error ∧
    (connect_start_sensor (Sensor.mk 1 2 "a" 0 ConnectionStatus.SubscribingFailedOnce)
        (TransportOutcome.mk true false false)).1.connection_status ≠
      ConnectionStatus.Disconnected :=
  ⟨rfl, rfl, by decide⟩

/-- C9 amended: when connect succeeds and subscribe fails, a prior
status that is neither `SubscribingFailedOnce` nor `Connected` becomes
`SubscribingFailedOnce` with no disconnect issued; a prior
`SubscribingFailedOnce` has a disconnect issued, the status becoming
`Disconnected` when the disconnect succeeds and staying
`SubscribingFailedOnce` (with the disconnect error propagating) when it
fails; in every such case an error is returned to the caller, and
`connect_sensor_at_idx` swallows it — the orchestrator loop sees `ok`. -/
theorem subscribe_failure_policy (sensor : Sensor) (t : TransportOutcome)
    (hc : t.connectOk = true) (hs : t.subscribeOk = false) :
    (sensor.connection_status ≠ ConnectionStatus.SubscribingFailedOnce →
      sensor.connection_status ≠ ConnectionStatus.Connected →
      connect_start_sensor sensor t =
        ({ sensor with connection_status := ConnectionStatus.SubscribingFailedOnce },
         false, CsResult.error)) ∧
    (sensor.connection_status = ConnectionStatus.SubscribingFailedOnce →
      (t.disconnectOk = true →
        connect_start_sensor sensor t =
          ({ sensor with connection_status := ConnectionStatus.Disconnected },
           true, CsResult.error)) ∧
      (t.disconnectOk = false →
        connect_start_sensor sensor t = (sensor, true, CsResult.error))) ∧
    (∀ sensors now timeout idx,
      (sensors.getD idx default).connection_status ≠ ConnectionStatus.Connected →
      (connect_sensor_at_idx sensors now timeout idx t).2.2 = CsResult.ok) := by
  refine ⟨?_, ?_, ?_⟩
  · intro hnsf hnc
    rw [connect_start_sensor]
    cases hst : sensor.connection_status with
    | SubscribingFailedOnce => exact absurd hst hnsf
    | Connected => exact absurd hst hnc
    | _ => simp [hc, hs, hst]
  · intro hsf
    constructor <;> intro hd <;> rw [connect_start_sensor] <;> simp [hc, hs, hsf, hd]
  · intro sensors now timeout idx hnc
    rw [connect_sensor_at_idx]
    have herr : (connect_start_sensor (sensors.getD idx default) t).2.2 =
        CsResult.error := by
      rw [connect_start_sensor]
      cases hst : (sensors.getD idx default).connection_status with
      | Connected => exact absurd hst hnc
      | SubscribingFailedOnce =>
        cases hd : t.disconnectOk <;> simp [hc, hs, hst, hd]
      | _ => simp [hc, hs, hst]
    simp only [herr]

/-- Witness for `subscribe_failure_policy`: connect succeeds, subscribe
fails, prior status `Unknown`, disconnect would succeed. -/
theorem subscribe_failure_policy_witness :
    (TransportOutcome.mk true false true).connectOk = true ∧
    (TransportOutcome.mk true false true).subscribeOk = false ∧
    (((Sensor.mk 1 2 "a" 0 ConnectionStatus.Unknown).connection_status ≠
        ConnectionStatus.SubscribingFailedOnce →
      (Sensor.mk 1 2 "a" 0 ConnectionStatus.Unknown).connection_status ≠
        ConnectionStatus.Connected →
      connect_start_sensor (Sensor.mk 1 2 "a" 0 ConnectionStatus.Unknown)
          (TransportOutcome.mk true false true) =
        ({ (Sensor.mk 1 2 "a" 0 ConnectionStatus.Unknown) with
           connection_status := ConnectionStatus.SubscribingFailedOnce },
         false, CsResult.error)) ∧
    ((Sensor.mk 1 2 "a" 0 ConnectionStatus.Unknown).connection_status =
        ConnectionStatus.SubscribingFailedOnce →
      ((TransportOutcome.mk true false true).disconnectOk = true →
        connect_start_sensor (Sensor.mk 1 2 "a" 0 ConnectionStatus.Unknown)
            (TransportOutcome.mk true false true) =
          ({ (Sensor.mk 1 2 "a" 0 ConnectionStatus.Unknown) with
             connection_status := ConnectionStatus.Disconnected },
           true, CsResult.error)) ∧
      ((TransportOutcome.mk true false true).disconnectOk = false →
        connect_start_sensor (Sensor.mk 1 2 "a" 0 ConnectionStatus.Unknown)
            (TransportOutcome.mk true false true) =
          (Sensor.mk 1 2 "a" 0 ConnectionStatus.Unknown, true, CsResult.error))) ∧
    (∀ sensors now timeout idx,
      (sensors.getD idx default).connection_status ≠ ConnectionStatus.Connected →
      (connect_sensor_at_idx sensors now timeout idx
          (TransportOutcome.mk true false true)).2.2 = CsResult.ok)) :=
  ⟨rfl, rfl,
    subscribe_failure_policy (Sensor.mk 1 2 "a" 0 ConnectionStatus.Unknown)
      (TransportOutcome.mk true false true) rfl rfl⟩

end PublishMqtt
